import Mathlib

/-!
Verification of the Windows FFI-binding layer of the repository
(src/twisted/python/win32.c, win32.h, win32_kernel.h) against its
natural-language specification.

The three source files are C declaration headers: struct layouts, numeric
constant tables and function prototypes.  The constants and struct layouts
are embedded below directly from the source.  The behavioural layer the
specification describes (HandleTable, PipeChannel, ProcessLauncher) is not
present in the sources, only its OS-level declarations are; those components
are modelled from the spec, as marked on each definition.
-/

namespace Twisted

/-! ## Constants embedded from src/twisted/python/win32_kernel.h, lines 36-64 -/

def ERROR_FILE_NOT_FOUND : Nat := 0x2
def ERROR_PATH_NOT_FOUND : Nat := 0x3
def ERROR_ACCESS_DENIED : Nat := 0x5
def ERROR_INVALID_HANDLE : Nat := 0x6
def ERROR_INVALID_PARAMETER : Nat := 0x57
def ERROR_INVALID_NAME : Nat := 0x7B
def ERROR_DIRECTORY : Nat := 0x10B
def FILE_FLAG_OVERLAPPED : Nat := 0x40000000
def FILE_APPEND_DATA : Nat := 4
def ERROR_IO_PENDING : Nat := 997
def PIPE_READMODE_BYTE : Nat := 0x00000000
def PIPE_READMODE_MESSAGE : Nat := 0x00000002
def PIPE_WAIT : Nat := 0x00000000
def PIPE_NOWAIT : Nat := 0x00000001
def MAX_PATH : Nat := 32767
def READ_CONTROL : Nat := 0x00020000
def STANDARD_RIGHTS_READ : Nat := 0x00020000
def STANDARD_RIGHTS_WRITE : Nat := 0x00020000
def STANDARD_RIGHTS_EXECUTE : Nat := 0x00020000
def FILE_READ_DATA : Nat := 0x1
def FILE_READ_ATTRIBUTES : Nat := 0x80
def FILE_READ_EA : Nat := 0x8
def SYNCHRONIZE : Nat := 0x100000
def STANDARD_RIGHTS_ALL : Nat := 0x001F0000
def SPECIFIC_RIGHTS_ALL : Nat := 0x0000FFFF
def FILE_WRITE_DATA : Nat := 0x2
def FILE_WRITE_ATTRIBUTES : Nat := 0x100
def FILE_WRITE_EA : Nat := 0x20
def FILE_EXECUTE : Nat := 0x20

/-- The constant table of win32_kernel.h (lines 36-64) as a name-to-value
association list, in source order.  Each entry is one `#define` line. -/
def kernelConstants : List (String × Nat) :=
  [("ERROR_FILE_NOT_FOUND", ERROR_FILE_NOT_FOUND),
   ("ERROR_PATH_NOT_FOUND", ERROR_PATH_NOT_FOUND),
   ("ERROR_ACCESS_DENIED", ERROR_ACCESS_DENIED),
   ("ERROR_INVALID_HANDLE", ERROR_INVALID_HANDLE),
   ("ERROR_INVALID_PARAMETER", ERROR_INVALID_PARAMETER),
   ("ERROR_INVALID_NAME", ERROR_INVALID_NAME),
   ("ERROR_DIRECTORY", ERROR_DIRECTORY),
   ("FILE_FLAG_OVERLAPPED", FILE_FLAG_OVERLAPPED),
   ("FILE_APPEND_DATA", FILE_APPEND_DATA),
   ("ERROR_IO_PENDING", ERROR_IO_PENDING),
   ("PIPE_READMODE_BYTE", PIPE_READMODE_BYTE),
   ("PIPE_READMODE_MESSAGE", PIPE_READMODE_MESSAGE),
   ("PIPE_WAIT", PIPE_WAIT),
   ("PIPE_NOWAIT", PIPE_NOWAIT),
   ("MAX_PATH", MAX_PATH),
   ("READ_CONTROL", READ_CONTROL),
   ("STANDARD_RIGHTS_READ", STANDARD_RIGHTS_READ),
   ("STANDARD_RIGHTS_WRITE", STANDARD_RIGHTS_WRITE),
   ("STANDARD_RIGHTS_EXECUTE", STANDARD_RIGHTS_EXECUTE),
   ("FILE_READ_DATA", FILE_READ_DATA),
   ("FILE_READ_ATTRIBUTES", FILE_READ_ATTRIBUTES),
   ("FILE_READ_EA", FILE_READ_EA),
   ("SYNCHRONIZE", SYNCHRONIZE),
   ("STANDARD_RIGHTS_ALL", STANDARD_RIGHTS_ALL),
   ("SPECIFIC_RIGHTS_ALL", SPECIFIC_RIGHTS_ALL),
   ("FILE_WRITE_DATA", FILE_WRITE_DATA),
   ("FILE_WRITE_ATTRIBUTES", FILE_WRITE_ATTRIBUTES),
   ("FILE_WRITE_EA", FILE_WRITE_EA),
   ("FILE_EXECUTE", FILE_EXECUTE)]

/-! ## Struct layouts embedded from the three headers

Each struct declaration is embedded as its ordered list of
(field name, field type) pairs, one definition per source declaration. -/

/-- Fields of SECURITY_ATTRIBUTES as declared in win32.c, lines 6-10. -/
def SECURITY_ATTRIBUTES_win32_c : List (String × String) :=
  [("nLength", "DWORD"),
   ("lpSecurityDescriptor", "LPVOID"),
   ("bInheritHandle", "BOOL")]

/-- Fields of SECURITY_ATTRIBUTES as declared in win32.h, lines 6-10. -/
def SECURITY_ATTRIBUTES_win32_h : List (String × String) :=
  [("nLength", "DWORD"),
   ("lpSecurityDescriptor", "LPVOID"),
   ("bInheritHandle", "BOOL")]

/-- Fields of struct _SECURITY_ATTRIBUTES as declared in win32_kernel.h,
lines 6-10. -/
def SECURITY_ATTRIBUTES_win32_kernel_h : List (String × String) :=
  [("nLength", "DWORD"),
   ("lpSecurityDescriptor", "LPVOID"),
   ("bInheritHandle", "BOOL")]

/-- Fields of STARTUPINFO as declared in win32.c, lines 12-31. -/
def STARTUPINFO_win32_c : List (String × String) :=
  [("cb", "DWORD"),
   ("lpReserved", "LPTSTR"),
   ("lpDesktop", "LPTSTR"),
   ("lpTitle", "LPTSTR"),
   ("dwX", "DWORD"),
   ("dwY", "DWORD"),
   ("dwXSize", "DWORD"),
   ("dwYSize", "DWORD"),
   ("dwXCountChars", "DWORD"),
   ("dwYCountChars", "DWORD"),
   ("dwFillAttribute", "DWORD"),
   ("dwFlags", "DWORD"),
   ("wShowWindow", "WORD"),
   ("cbReserved2", "WORD"),
   ("lpReserved2", "LPBYTE"),
   ("hStdInput", "HANDLE"),
   ("hStdOutput", "HANDLE"),
   ("hStdError", "HANDLE")]

/-- Fields of STARTUPINFO as declared in win32.h, lines 12-31. -/
def STARTUPINFO_win32_h : List (String × String) :=
  [("cb", "DWORD"),
   ("lpReserved", "LPTSTR"),
   ("lpDesktop", "LPTSTR"),
   ("lpTitle", "LPTSTR"),
   ("dwX", "DWORD"),
   ("dwY", "DWORD"),
   ("dwXSize", "DWORD"),
   ("dwYSize", "DWORD"),
   ("dwXCountChars", "DWORD"),
   ("dwYCountChars", "DWORD"),
   ("dwFillAttribute", "DWORD"),
   ("dwFlags", "DWORD"),
   ("wShowWindow", "WORD"),
   ("cbReserved2", "WORD"),
   ("lpReserved2", "LPBYTE"),
   ("hStdInput", "HANDLE"),
   ("hStdOutput", "HANDLE"),
   ("hStdError", "HANDLE")]

/-- Fields of PROCESS_INFORMATION as declared in win32.c, lines 33-38. -/
def PROCESS_INFORMATION_win32_c : List (String × String) :=
  [("hProcess", "HANDLE"),
   ("hThread", "HANDLE"),
   ("dwProcessId", "DWORD"),
   ("dwThreadId", "DWORD")]

/-- Fields of PROCESS_INFORMATION as declared in win32.h, lines 33-38. -/
def PROCESS_INFORMATION_win32_h : List (String × String) :=
  [("hProcess", "HANDLE"),
   ("hThread", "HANDLE"),
   ("dwProcessId", "DWORD"),
   ("dwThreadId", "DWORD")]

/-! ## HandleTable, modelled from the spec

The spec (section 4.1) describes a HandleTable tracking OS handles with
explicit ownership: register returns an id, release closes the underlying
handle exactly once and is idempotent, and a failing OS close yields a
ResourceError that is logged and non-fatal. -/

/-- Modelled from the spec: one HandleTable entry, an OS handle value with
its closed flag (the Handle data-model invariant of spec section 3). -/
structure HandleEntry where
  handle : Nat
  closed : Bool
deriving DecidableEq, Repr

/-- Modelled from the spec: the HandleTable of spec section 4.1.  `entries`
maps registered ids (newest first) to their entries, `nextId` is the next
fresh id, and `osCloses` records, in order, every handle value passed to the
OS CloseHandle call (declared in win32.c line 64 and win32_kernel.h line
75), so that close-exactly-once is observable. -/
structure HandleTable where
  entries : List (Nat × HandleEntry)
  nextId : Nat
  osCloses : List Nat
deriving DecidableEq, Repr

/-- Modelled from the spec: result of a HandleTable release; ResourceError
is reported when the underlying OS close fails (spec section 4.1). -/
inductive ReleaseResult
  | ok
  | resourceError
deriving DecidableEq, Repr

/-- Modelled from the spec: register(handle) adds a fresh id owning the
handle and returns that id (spec section 4.1). -/
def HandleTable.registerHandle (t : HandleTable) (h : Nat) : HandleTable × Nat :=
  ({ entries := (t.nextId, ⟨h, false⟩) :: t.entries,
     nextId := t.nextId + 1,
     osCloses := t.osCloses }, t.nextId)

/-- Modelled from the spec: the entry scan of release(id).  Walks the entry
list; on the first entry whose id matches and which is still open it marks
the entry closed and emits one OS CloseHandle call, whose success is decided
by the oracle `osOk`; an already-closed or absent id changes nothing.
Returns the updated entries, the handles passed to the OS, and the result. -/
def releaseScan (osOk : Nat → Bool) :
    List (Nat × HandleEntry) → Nat →
    List (Nat × HandleEntry) × List Nat × ReleaseResult
  | [], _ => ([], [], .ok)
  | (k, e) :: rest, id =>
    if k = id then
      if e.closed then ((k, e) :: rest, [], .ok)
      else ((k, ⟨e.handle, true⟩) :: rest, [e.handle],
            if osOk e.handle then .ok else .resourceError)
    else
      let r := releaseScan osOk rest id
      ((k, e) :: r.1, r.2.1, r.2.2)

/-- Modelled from the spec: release(id) closes the underlying handle exactly
once and is idempotent (spec section 4.1); `osOk` is the oracle saying
whether the OS CloseHandle call succeeds for a given handle value. -/
def HandleTable.release (osOk : Nat → Bool) (t : HandleTable) (id : Nat) :
    HandleTable × ReleaseResult :=
  let r := releaseScan osOk t.entries id
  ({ entries := r.1, nextId := t.nextId, osCloses := t.osCloses ++ r.2.1 },
   r.2.2)

/-! ## Error taxonomy, modelled from the spec

Spec section 3 and section 7: a platform-neutral ErrorCode enumeration
translated at the boundary from whatever the OS layer reports; wouldBlock
and pending conditions are not failures. -/

/-- Modelled from the spec: the platform-neutral error enumeration
(access-denied, not-found, invalid-argument, pending, broken-pipe). -/
inductive ErrorCode
  | accessDenied
  | notFound
  | invalidArgument
  | pending
  | brokenPipe
deriving DecidableEq, Repr

/-- Modelled from the spec: the OS broken-pipe error code, which
win32_kernel.h does not declare; the Windows value is 109. -/
def ERROR_BROKEN_PIPE : Nat := 109

/-- Modelled from the spec: the boundary translation from OS error codes to
the platform-neutral taxonomy, keyed on the error constants declared in
win32_kernel.h lines 36-45.  An unrecognised code is reported as an invalid
argument. -/
def translateError (c : Nat) : ErrorCode :=
  if c = ERROR_ACCESS_DENIED then .accessDenied
  else if c = ERROR_FILE_NOT_FOUND ∨ c = ERROR_PATH_NOT_FOUND ∨
          c = ERROR_INVALID_NAME ∨ c = ERROR_DIRECTORY then .notFound
  else if c = ERROR_INVALID_PARAMETER ∨ c = ERROR_INVALID_HANDLE then
    .invalidArgument
  else if c = ERROR_IO_PENDING then .pending
  else if c = ERROR_BROKEN_PIPE then .brokenPipe
  else .invalidArgument

/-- Modelled from the spec: which taxonomy members are failures.  Pending
(the wouldBlock condition) is timing, not failure (spec section 7). -/
def ErrorCode.isFailure : ErrorCode → Bool
  | .pending => false
  | _ => true

/-! ## PipeChannel, modelled from the spec

Spec section 4.2: a unidirectional byte pipe with non-blocking tryRead and
tryWrite; end-of-stream is detected when the peer end is closed and no
buffered data remains, normalising both a zero-length successful read and a
broken-pipe error code to endOfStream.  The OS calls behind it are ReadFile
and WriteFile, declared in win32_kernel.h lines 76-77. -/

/-- Modelled from the spec: the state of one unidirectional byte pipe — the
bytes buffered in the OS pipe (oldest first), the buffer capacity, and
whether the peer write end has been closed. -/
structure PipeState where
  buffer : List Nat
  capacity : Nat
  writerClosed : Bool
deriving DecidableEq, Repr

/-- Modelled from the spec: the raw outcome of the platform ReadFile call
(win32_kernel.h line 76): either success with the bytes read, or a FALSE
return with an OS error code. -/
inductive RawReadResult
  | success (data : List Nat)
  | osError (code : Nat)
deriving DecidableEq, Repr

/-- Modelled from the spec: the tryRead outcome of spec section 4.2:
bytes read, wouldBlock, endOfStream, or a translated failure. -/
inductive ReadResult
  | bytes (data : List Nat)
  | wouldBlock
  | endOfStream
  | failed (e : ErrorCode)
deriving DecidableEq, Repr

/-- Modelled from the spec: the platform ReadFile call on the pipe.  With
buffered data it returns up to `n` bytes.  On an empty pipe whose writer is
closed the platform reports either a zero-length successful read or a
broken-pipe error code; which of the two is chosen by `brokenAsError`.  On
an empty open pipe the non-blocking read is pending. -/
def rawRead (brokenAsError : Bool) (n : Nat) (s : PipeState) :
    RawReadResult × PipeState :=
  if s.buffer = [] then
    if s.writerClosed then
      (if brokenAsError then .osError ERROR_BROKEN_PIPE else .success [], s)
    else (.osError ERROR_IO_PENDING, s)
  else (.success (s.buffer.take n), { s with buffer := s.buffer.drop n })

/-- Modelled from the spec: normalisation of the platform read outcome.  A
zero-length successful read and a broken-pipe error code both become
endOfStream; a pending code becomes wouldBlock; any other error code is a
translated failure. -/
def normalizeRead : RawReadResult → ReadResult
  | .success [] => .endOfStream
  | .success data => .bytes data
  | .osError c =>
    if c = ERROR_BROKEN_PIPE then .endOfStream
    else if c = ERROR_IO_PENDING then .wouldBlock
    else .failed (translateError c)

/-- Modelled from the spec: tryRead of spec section 4.2 — the platform read
followed by normalisation. -/
def tryRead (brokenAsError : Bool) (n : Nat) (s : PipeState) :
    ReadResult × PipeState :=
  let r := rawRead brokenAsError n s
  (normalizeRead r.1, r.2)

/-- Modelled from the spec: tryWrite of spec section 4.2 via the platform
WriteFile call (win32_kernel.h line 77).  The pipe accepts bytes up to its
remaining capacity (none when the write end is closed); the accepted prefix
is appended to the buffer and its length reported, a shorter-than-requested
acceptance being the wouldBlock partial write. -/
def tryWrite (data : List Nat) (s : PipeState) : PipeState × List Nat :=
  if s.writerClosed then (s, [])
  else
    let accepted := data.take (s.capacity - s.buffer.length)
    ({ s with buffer := s.buffer ++ accepted }, accepted)

/-- Modelled from the spec: one step of the caller's pipe usage — a tryWrite
of some bytes or a tryRead of some count. -/
inductive PipeOp
  | write (data : List Nat)
  | read (n : Nat)

/-- Outcome of running a sequence of pipe operations: the final pipe state,
the concatenation of all bytes tryWrite accepted, and the concatenation of
all bytes tryRead returned, each in operation order. -/
structure PipeTrace where
  final : PipeState
  written : List Nat
  readOut : List Nat
deriving Repr

/-- The bytes a read result delivers to the caller. -/
def ReadResult.deliveredBytes : ReadResult → List Nat
  | .bytes data => data
  | _ => []

/-- Modelled from the spec: run a sequence of tryWrite and tryRead calls on
a pipe, collecting the accepted written bytes and the delivered read bytes
in order. -/
def runPipe (brokenAsError : Bool) : PipeState → List PipeOp → PipeTrace
  | s, [] => { final := s, written := [], readOut := [] }
  | s, .write data :: rest =>
    let w := tryWrite data s
    let t := runPipe brokenAsError w.1 rest
    { final := t.final, written := w.2 ++ t.written, readOut := t.readOut }
  | s, .read n :: rest =>
    let r := tryRead brokenAsError n s
    let t := runPipe brokenAsError r.2 rest
    { final := t.final, written := t.written,
      readOut := r.1.deliveredBytes ++ t.readOut }

/-! ## ProcessRecord lifecycle, modelled from the spec

Spec section 4.4: `Spawning → Running → Exited(code) | Killed(signal) |
SpawnFailed(error)`; terminal states are immutable and wait is idempotent
once resolved.  The OS primitive behind wait is WaitForSingleObject,
declared in win32.c line 65 and win32.h line 81. -/

/-- Modelled from the spec: the lifecycle states of a ProcessRecord. -/
inductive ProcState
  | spawning
  | running
  | exited (code : Int)
  | killed (signal : Nat)
  | spawnFailed (err : Nat)
deriving DecidableEq, Repr

/-- Whether a lifecycle state is terminal (spec section 4.4). -/
def ProcState.isTerminal : ProcState → Bool
  | .exited _ => true
  | .killed _ => true
  | .spawnFailed _ => true
  | _ => false

/-- Modelled from the spec: a ProcessRecord, the process identifier and its
lifecycle state, which doubles as the exit-status cell once terminal. -/
structure ProcessRecord where
  pid : Nat
  state : ProcState
deriving DecidableEq, Repr

/-- Modelled from the spec: what the OS WaitForSingleObject resolution
reports for a running process — a signed exit code, or abnormal
termination by a signal. -/
inductive OsWaitOutcome
  | exitedWith (code : Int)
  | killedBy (signal : Nat)
deriving DecidableEq, Repr

/-- Modelled from the spec: wait(record) resolves when the OS signals
process termination, with outcome `o`; on a record already in a terminal
state it changes nothing and returns the recorded status. -/
def wait (r : ProcessRecord) (o : OsWaitOutcome) : ProcessRecord × ProcState :=
  match r.state with
  | .spawning | .running =>
    match o with
    | .exitedWith c => ({ r with state := .exited c }, .exited c)
    | .killedBy g => ({ r with state := .killed g }, .killed g)
  | s => (r, s)

/-! ## ProcessLauncher spawn, modelled from the spec

Spec section 4.3: for each redirect-to-pipe stream the launcher creates a
pipe pair via the HandleTable; then the OS CreateProcess call (declared in
win32.c lines 61-63) is issued; if it fails, all handles created for this
attempt are released before returning SpawnError. -/

/-- Modelled from the spec: create one pipe pair per redirect-to-pipe
stream (the CreatePipe call of win32.c line 57), registering both ends in
the HandleTable; returns the table and the ids created for this attempt,
newest first. -/
def createPipes : HandleTable → List Bool → HandleTable × List Nat
  | t, [] => (t, [])
  | t, b :: rest =>
    if b then
      let r1 := t.registerHandle t.nextId
      let r2 := r1.1.registerHandle r1.1.nextId
      let rs := createPipes r2.1 rest
      (rs.1, rs.2 ++ [r2.2, r1.2])
    else createPipes t rest

/-- Modelled from the spec: release each of the given ids in turn through
HandleTable.release. -/
def releaseAll (osOk : Nat → Bool) (t : HandleTable) : List Nat → HandleTable
  | [] => t
  | id :: rest => releaseAll osOk (t.release osOk id).1 rest

/-- Modelled from the spec: the outcome of a spawn attempt — a
ProcessRecord, or SpawnError when the OS-level creation call fails. -/
inductive SpawnResult
  | ok (r : ProcessRecord)
  | spawnError
deriving DecidableEq, Repr

/-- Modelled from the spec: spawn(command, ...) with per-stream redirect
configuration `stdio`.  Pipe pairs are created through the HandleTable,
then the OS CreateProcess call is issued; its success is the oracle
`createOk`.  On success the record enters the running phase; on failure
every handle created for this attempt is released and SpawnError is
returned. -/
def spawn (osOk : Nat → Bool) (t : HandleTable) (stdio : List Bool)
    (createOk : Bool) (pid : Nat) : HandleTable × SpawnResult :=
  let c := createPipes t stdio
  if createOk then (c.1, .ok ⟨pid, .running⟩)
  else (releaseAll osOk c.1 c.2, .spawnError)

/-- The entries of a table that are still registered and open. -/
def openEntries (t : HandleTable) : List (Nat × HandleEntry) :=
  t.entries.filter fun p => !p.2.closed

/-- Mark every entry of a list closed. -/
def markClosed (es : List (Nat × HandleEntry)) : List (Nat × HandleEntry) :=
  es.map fun p => (p.1, ⟨p.2.handle, true⟩)

/-! ## The layer state, for the constant-table immutability claim

Spec section 9: global constant tables (error codes, flags) are a pure data
mapping, defined once at initialization and never mutated by any operation
of the layer. -/

/-- Modelled from the spec: the state of the layer — its HandleTable
together with the constant table loaded from win32_kernel.h. -/
structure LayerState where
  table : HandleTable
  constants : List (String × Nat)
deriving Repr

/-- Modelled from the spec: the operations the layer exposes over its
state: registering a handle, releasing a handle, and a spawn attempt. -/
inductive LayerOp
  | registerOp (h : Nat)
  | releaseOp (osOk : Nat → Bool) (id : Nat)
  | spawnOp (osOk : Nat → Bool) (stdio : List Bool) (createOk : Bool) (pid : Nat)

/-- Modelled from the spec: apply one layer operation to the layer state. -/
def applyOp (s : LayerState) : LayerOp → LayerState
  | .registerOp h => { s with table := (s.table.registerHandle h).1 }
  | .releaseOp osOk id => { s with table := (s.table.release osOk id).1 }
  | .spawnOp osOk stdio createOk pid =>
    { s with table := (spawn osOk s.table stdio createOk pid).1 }

/-- Modelled from the spec: the layer state at process-wide initialization:
empty handle table, constant table as declared in win32_kernel.h. -/
def initLayer : LayerState :=
  { table := ⟨[], 0, []⟩, constants := kernelConstants }

/-! ## Helper lemmas -/

/-- After a release of `id`, a second scan for `id` finds the entry already
closed (or still absent) and does nothing: same entries, no OS close, ok. -/
theorem releaseScan_idem (osOk : Nat → Bool)
    (es : List (Nat × HandleEntry)) (id : Nat) :
    releaseScan osOk (releaseScan osOk es id).1 id =
      ((releaseScan osOk es id).1, [], .ok) := by
  induction es with
  | nil => simp [releaseScan]
  | cons p rest ih =>
    obtain ⟨k, e⟩ := p
    by_cases hk : k = id
    · by_cases hc : e.closed
      · simp [releaseScan, hk, hc]
      · simp [releaseScan, hk, hc]
    · simp [releaseScan, hk, ih]

/-- Normalising a successful platform read delivers exactly the bytes the
platform returned: a nonempty payload is delivered as bytes, an empty one
becomes endOfStream, which delivers nothing. -/
theorem deliveredBytes_normalize_success (xs : List Nat) :
    (normalizeRead (.success xs)).deliveredBytes = xs := by
  cases xs <;> rfl

/-- The FIFO invariant of a pipe trace: what was buffered at the start plus
everything accepted by writes equals everything delivered by reads plus what
remains buffered at the end. -/
theorem runPipe_fifo (brokenAsError : Bool) (s : PipeState) (ops : List PipeOp) :
    s.buffer ++ (runPipe brokenAsError s ops).written =
      (runPipe brokenAsError s ops).readOut ++
        (runPipe brokenAsError s ops).final.buffer := by
  induction ops generalizing s with
  | nil => simp [runPipe]
  | cons op rest ih =>
    cases op with
    | write data =>
      by_cases hw : s.writerClosed
      · simpa [runPipe, tryWrite, hw] using ih s
      · have := ih { s with buffer :=
          s.buffer ++ data.take (s.capacity - s.buffer.length) }
        simp only [runPipe, tryWrite, hw, if_neg, Bool.false_eq_true,
          ite_false] at *
        simpa [List.append_assoc] using this
    | read n =>
      by_cases hb : s.buffer = []
      · by_cases hw : s.writerClosed
        · cases brokenAsError <;>
            simpa [runPipe, tryRead, rawRead, normalizeRead, hb, hw,
              ReadResult.deliveredBytes] using ih s
        · simpa [runPipe, tryRead, rawRead, normalizeRead, hb, hw,
            ReadResult.deliveredBytes] using ih s
      · have ih2 := ih { s with buffer := s.buffer.drop n }
        simp only [runPipe, tryRead, rawRead, if_neg hb,
          deliveredBytes_normalize_success, List.append_assoc]
        rw [← ih2, ← List.append_assoc, List.take_append_drop]

/-- A release scan passes over a prefix whose keys all differ from the
target id without touching it. -/
theorem releaseScan_skip (osOk : Nat → Bool) (pre es : List (Nat × HandleEntry))
    (id : Nat) (h : ∀ p ∈ pre, p.1 ≠ id) :
    releaseScan osOk (pre ++ es) id =
      (pre ++ (releaseScan osOk es id).1,
       (releaseScan osOk es id).2.1, (releaseScan osOk es id).2.2) := by
  induction pre with
  | nil => simp
  | cons p rest ih =>
    obtain ⟨k, e⟩ := p
    have hk : k ≠ id := h (k, e) (by simp)
    have ih2 := ih fun q hq => h q (List.mem_cons_of_mem _ hq)
    simp [releaseScan, hk, ih2]

/-- Releasing, in order, the ids of a block of entries sitting between an
already-processed prefix (whose keys are disjoint from the block) and the
rest of the table closes exactly the block: the prefix and the old entries
are untouched, nextId is untouched, and osCloses only grows. -/
theorem releaseAll_block (osOk : Nat → Bool) :
    ∀ (newE pre old : List (Nat × HandleEntry)) (nI : Nat) (nO : List Nat),
    (((pre ++ newE).map Prod.fst).Nodup) →
    ∃ cl, releaseAll osOk ⟨pre ++ (newE ++ old), nI, nO⟩ (newE.map Prod.fst) =
      ⟨pre ++ (markClosed newE ++ old), nI, nO ++ cl⟩ := by
  intro newE
  induction newE with
  | nil =>
    intro pre old nI nO _
    exact ⟨[], by simp [releaseAll, markClosed]⟩
  | cons p restE ih =>
    intro pre old nI nO hnd
    obtain ⟨i, e⟩ := p
    have hpre : ∀ q ∈ pre, q.1 ≠ i := by
      intro q hq
      have : (pre.map Prod.fst).Disjoint (((i, e) :: restE).map Prod.fst) :=
        List.disjoint_of_nodup_append (by simpa using hnd)
      intro hqi
      exact this (List.mem_map_of_mem Prod.fst hq) (by simp [hqi])
    have hscan := releaseScan_skip osOk pre (((i, e) :: restE) ++ old) i hpre
    have hnd2 : (((pre ++ [(i, HandleEntry.mk e.handle true)]) ++ restE).map Prod.fst).Nodup := by
      have : ((pre ++ [(i, HandleEntry.mk e.handle true)]) ++ restE).map Prod.fst =
          (pre ++ (i, e) :: restE).map Prod.fst := by
        simp
      rw [this]
      exact hnd
    obtain ⟨cl2, hcl2⟩ := ih (pre ++ [(i, HandleEntry.mk e.handle true)]) old nI
      (nO ++ (if e.closed then [] else [e.handle])) hnd2
    refine ⟨(if e.closed then [] else [e.handle]) ++ cl2, ?_⟩
    have hstep : (HandleTable.release osOk
        ⟨pre ++ (((i, e) :: restE) ++ old), nI, nO⟩ i).1 =
        ⟨(pre ++ [(i, HandleEntry.mk e.handle true)]) ++ (restE ++ old), nI,
         nO ++ (if e.closed then [] else [e.handle])⟩ := by
      obtain ⟨hv, hc⟩ := e
      cases hc with
      | true =>
        simp only [HandleTable.release, hscan, releaseScan, if_pos rfl]
        simp
      | false =>
        simp only [HandleTable.release, hscan, releaseScan, if_pos rfl]
        simp
    calc releaseAll osOk ⟨pre ++ (((i, e) :: restE) ++ old), nI, nO⟩
          (((i, e) :: restE).map Prod.fst)
        = releaseAll osOk ⟨(pre ++ [(i, HandleEntry.mk e.handle true)]) ++ (restE ++ old),
            nI, nO ++ (if e.closed then [] else [e.handle])⟩
            (restE.map Prod.fst) := by
          simp only [List.map_cons, releaseAll, hstep]
      _ = ⟨(pre ++ [(i, HandleEntry.mk e.handle true)]) ++ (markClosed restE ++ old), nI,
            (nO ++ (if e.closed then [] else [e.handle])) ++ cl2⟩ := hcl2
      _ = ⟨pre ++ (markClosed ((i, e) :: restE) ++ old), nI,
            nO ++ ((if e.closed then [] else [e.handle]) ++ cl2)⟩ := by
          simp [markClosed, List.append_assoc]

/-- The structure of a createPipes run: the resulting table is the old one
with a block of fresh entries prepended; the returned ids are exactly the
keys of that block, they are pairwise distinct and at least the old nextId,
and osCloses is untouched. -/
theorem createPipes_spec (stdio : List Bool) : ∀ t : HandleTable,
    ∃ newE, (createPipes t stdio).1.entries = newE ++ t.entries ∧
      (createPipes t stdio).2 = newE.map Prod.fst ∧
      (createPipes t stdio).1.osCloses = t.osCloses ∧
      t.nextId ≤ (createPipes t stdio).1.nextId ∧
      (∀ i ∈ newE.map Prod.fst, t.nextId ≤ i) ∧
      (newE.map Prod.fst).Nodup := by
  induction stdio with
  | nil =>
    intro t
    refine ⟨[], ?_, ?_, ?_, ?_, ?_, ?_⟩ <;> simp [createPipes]
  | cons b rest ih =>
    intro t
    cases b with
    | false =>
      obtain ⟨newE, h1, h2, h3, h4, h5, h6⟩ := ih t
      refine ⟨newE, ?_, ?_, ?_, ?_, ?_, h6⟩
      · simpa [createPipes] using h1
      · simpa [createPipes] using h2
      · simpa [createPipes] using h3
      · simpa [createPipes] using h4
      · simpa [createPipes] using h5
    | true =>
      obtain ⟨newE, h1, h2, h3, h4, h5, h6⟩ :=
        ih ⟨(t.nextId + 1, HandleEntry.mk (t.nextId + 1) false) ::
            (t.nextId, HandleEntry.mk t.nextId false) :: t.entries,
            t.nextId + 2, t.osCloses⟩
      have hunfold : createPipes t (true :: rest) =
          ((createPipes ⟨(t.nextId + 1, HandleEntry.mk (t.nextId + 1) false) ::
              (t.nextId, HandleEntry.mk t.nextId false) :: t.entries,
              t.nextId + 2, t.osCloses⟩ rest).1,
           (createPipes ⟨(t.nextId + 1, HandleEntry.mk (t.nextId + 1) false) ::
              (t.nextId, HandleEntry.mk t.nextId false) :: t.entries,
              t.nextId + 2, t.osCloses⟩ rest).2 ++
             [t.nextId + 1, t.nextId]) := rfl
      refine ⟨newE ++ [(t.nextId + 1, HandleEntry.mk (t.nextId + 1) false),
        (t.nextId, HandleEntry.mk t.nextId false)], ?_, ?_, ?_, ?_, ?_, ?_⟩
      · rw [hunfold]
        simpa [List.append_assoc] using h1
      · rw [hunfold]
        simp [h2]
      · rw [hunfold]
        simpa using h3
      · rw [hunfold]
        simp only at h4 ⊢
        omega
      · intro i hi
        simp only [List.map_append, List.mem_append] at hi
        rcases hi with hi | hi
        · have := h5 i hi
          simp only at this
          omega
        · simp only [List.map_cons, List.mem_cons] at hi
          rcases hi with rfl | hi
          · omega
          · simp at hi
            omega
      · simp only [List.map_append]
        refine List.Nodup.append h6 (by simp) ?_
        intro a ha hb
        have := h5 a ha
        simp only at this
        simp only [List.map_cons, List.map_nil, List.mem_cons,
          List.mem_singleton] at hb
        rcases hb with rfl | hb
        · omega
        · simp at hb
          omega

/-- Entries marked closed never survive the open filter. -/
theorem filter_open_markClosed (es : List (Nat × HandleEntry)) :
    (markClosed es).filter (fun p => !p.2.closed) = [] := by
  induction es with
  | nil => rfl
  | cons p rest ih =>
    have hm : markClosed (p :: rest) =
        (p.1, HandleEntry.mk p.2.handle true) :: markClosed rest := rfl
    rw [hm, List.filter_cons]
    simpa using ih

/-- No single layer operation changes the constant component of the layer
state. -/
theorem applyOp_constants (s : LayerState) (op : LayerOp) :
    (applyOp s op).constants = s.constants := by
  cases op <;> rfl

/-- No sequence of layer operations changes the constant component of the
layer state. -/
theorem foldl_applyOp_constants (ops : List LayerOp) :
    ∀ s : LayerState, (ops.foldl applyOp s).constants = s.constants := by
  induction ops with
  | nil => intro s; rfl
  | cons op rest ih =>
    intro s
    rw [List.foldl_cons, ih, applyOp_constants]

/-! ## Theorems for the claims -/

/-- Claim C1: a spawn attempt that fails (the OS-level CreateProcess call
reports failure) returns SpawnError, and every handle created for that
attempt has been released before spawn returns: the open entries of the
HandleTable after the failed spawn are exactly those that were open before
it, so no handle created during the attempt remains registered. -/
theorem spawn_failure_releases_handles (osOk : Nat → Bool) (t : HandleTable)
    (stdio : List Bool) (pid : Nat) :
    (spawn osOk t stdio false pid).2 = SpawnResult.spawnError ∧
    openEntries (spawn osOk t stdio false pid).1 = openEntries t := by
  obtain ⟨newE, h1, h2, h3, h4, h5, h6⟩ := createPipes_spec stdio t
  obtain ⟨cl, hbl⟩ := releaseAll_block osOk newE [] t.entries
    (createPipes t stdio).1.nextId (createPipes t stdio).1.osCloses
    (by simpa using h6)
  have htab : (createPipes t stdio).1 =
      ⟨[] ++ (newE ++ t.entries), (createPipes t stdio).1.nextId,
        (createPipes t stdio).1.osCloses⟩ := by
    rw [← h1]
    rfl
  constructor
  · rfl
  · show openEntries
        (releaseAll osOk (createPipes t stdio).1 (createPipes t stdio).2) =
      openEntries t
    rw [h2, htab, hbl]
    simp [openEntries, List.filter_append, filter_open_markClosed]

/-- Claim C3: FIFO byte order.  For every pipe (any capacity, any peer
state), starting from an empty buffer, and every sequence of tryWrite and
tryRead calls, the concatenation of the bytes the reads returned is a
prefix of the concatenation of the bytes the writes accepted, byte for
byte, in order, however the bytes were split across the individual reads. -/
theorem pipe_fifo_reads_prefix_of_writes (brokenAsError : Bool)
    (cap : Nat) (wc : Bool) (ops : List PipeOp) :
    ∃ rest, (runPipe brokenAsError ⟨[], cap, wc⟩ ops).written =
      (runPipe brokenAsError ⟨[], cap, wc⟩ ops).readOut ++ rest := by
  refine ⟨(runPipe brokenAsError ⟨[], cap, wc⟩ ops).final.buffer, ?_⟩
  simpa using runPipe_fifo brokenAsError ⟨[], cap, wc⟩ ops

/-- Claim C4: with the peer write end closed, tryRead reports endOfStream
exactly when no buffered data remains, and both platform-level signals —
the zero-length successful read and the broken-pipe error code — normalize
to the same endOfStream result rather than an error. -/
theorem endOfStream_iff_drained (brokenAsError : Bool) (n : Nat)
    (s : PipeState) (hn : 0 < n) (hw : s.writerClosed = true) :
    ((tryRead brokenAsError n s).1 = ReadResult.endOfStream ↔ s.buffer = []) ∧
    normalizeRead (RawReadResult.success []) = ReadResult.endOfStream ∧
    normalizeRead (RawReadResult.osError ERROR_BROKEN_PIPE) =
      ReadResult.endOfStream := by
  refine ⟨?_, rfl, by simp [normalizeRead]⟩
  by_cases hb : s.buffer = []
  · cases brokenAsError <;>
      simp [tryRead, rawRead, normalizeRead, hb, hw]
  · rcases hbb : s.buffer with _ | ⟨a, l⟩
    · exact absurd hbb hb
    · rcases n with _ | m
      · omega
      · simp [tryRead, rawRead, normalizeRead, hb, hbb]

/-- Witness for the end-of-stream claim: a drained pipe whose writer is
closed reports endOfStream on a one-byte read request. -/
theorem endOfStream_iff_drained_witness :
    0 < 1 ∧ PipeState.writerClosed ⟨[], 4, true⟩ = true ∧
    (tryRead true 1 ⟨[], 4, true⟩).1 = ReadResult.endOfStream :=
  ⟨by decide, rfl,
    ((endOfStream_iff_drained true 1 ⟨[], 4, true⟩ (by decide) rfl).1).mpr rfl⟩

/-- Claim C5: the boundary translation maps every OS error code to exactly
one member of the platform-neutral taxonomy, each error constant declared
in win32_kernel.h landing on its prescribed member, and the pending
(wouldBlock) condition is never mapped to a failure value. -/
theorem translateError_total_and_pending_not_failure :
    (∀ c : Nat, ∃! e : ErrorCode, translateError c = e) ∧
    translateError ERROR_ACCESS_DENIED = ErrorCode.accessDenied ∧
    translateError ERROR_FILE_NOT_FOUND = ErrorCode.notFound ∧
    translateError ERROR_PATH_NOT_FOUND = ErrorCode.notFound ∧
    translateError ERROR_INVALID_NAME = ErrorCode.notFound ∧
    translateError ERROR_DIRECTORY = ErrorCode.notFound ∧
    translateError ERROR_INVALID_PARAMETER = ErrorCode.invalidArgument ∧
    translateError ERROR_INVALID_HANDLE = ErrorCode.invalidArgument ∧
    translateError ERROR_IO_PENDING = ErrorCode.pending ∧
    translateError ERROR_BROKEN_PIPE = ErrorCode.brokenPipe ∧
    (translateError ERROR_IO_PENDING).isFailure = false := by
  exact ⟨fun c => ⟨translateError c, rfl, fun y h => h.symm⟩, by decide⟩

/-- Claim C6: wait drives every spawned record to exactly one terminal
state; a terminal state never changes once entered; and once wait has
resolved, every repeated wait on the record returns the same exit status
and leaves the record unchanged. -/
theorem wait_terminal_and_idempotent (r : ProcessRecord)
    (o o2 : OsWaitOutcome) :
    ((wait r o).1.state.isTerminal = true) ∧
    (r.state.isTerminal = true → wait r o = (r, r.state)) ∧
    wait (wait r o).1 o2 = ((wait r o).1, (wait r o).2) := by
  obtain ⟨pid, st⟩ := r
  cases st <;> cases o <;> cases o2 <;>
    simp [wait, ProcState.isTerminal]

/-- Witness for the wait claim: a record already in the terminal
SpawnFailed state is left unchanged by wait, which returns that state. -/
theorem wait_terminal_and_idempotent_witness :
    wait ⟨3, ProcState.spawnFailed 2⟩ (OsWaitOutcome.exitedWith 0) =
      (⟨3, ProcState.spawnFailed 2⟩, ProcState.spawnFailed 2) :=
  (wait_terminal_and_idempotent ⟨3, ProcState.spawnFailed 2⟩
    (OsWaitOutcome.exitedWith 0) (OsWaitOutcome.killedBy 9)).2.1 rfl

/-- Claim C7: the constant table is a pure immutable data mapping: in the
initial layer state every constant name of win32_kernel.h is defined
exactly once, no layer operation changes the constant component of the
state, and after any sequence of operations the constants are still
exactly the table defined at initialization. -/
theorem constants_defined_once_and_immutable :
    ((initLayer.constants.map Prod.fst).Nodup) ∧
    (∀ (s : LayerState) (op : LayerOp),
      (applyOp s op).constants = s.constants) ∧
    (∀ ops : List LayerOp,
      (ops.foldl applyOp initLayer).constants = kernelConstants) :=
  ⟨by decide, applyOp_constants,
    fun ops => foldl_applyOp_constants ops initLayer⟩

/-! ## Theorems for the numerical and layout claims -/

/-- Claim C2: double release is a no-op.  For every handle table, close
oracle and id, releasing `id` a second time leaves the table exactly as the
first release left it — in particular `osCloses` gains nothing, so the OS
close is performed exactly once — and returns ok, never ResourceError. -/
theorem release_idempotent (osOk : Nat → Bool) (t : HandleTable) (id : Nat) :
    HandleTable.release osOk (HandleTable.release osOk t id).1 id =
      ((HandleTable.release osOk t id).1, ReleaseResult.ok) := by
  simp [HandleTable.release, releaseScan_idem]

/-- Claim C8: the struct types declared in the binding headers are
layout-equivalent: SECURITY_ATTRIBUTES, STARTUPINFO and PROCESS_INFORMATION
as declared in win32.c have exactly the same fields, in the same order, with
the same types as their declarations in win32.h, and SECURITY_ATTRIBUTES
likewise matches its declaration in win32_kernel.h. -/
theorem struct_layouts_equivalent :
    SECURITY_ATTRIBUTES_win32_c = SECURITY_ATTRIBUTES_win32_h ∧
    SECURITY_ATTRIBUTES_win32_c = SECURITY_ATTRIBUTES_win32_kernel_h ∧
    STARTUPINFO_win32_c = STARTUPINFO_win32_h ∧
    PROCESS_INFORMATION_win32_c = PROCESS_INFORMATION_win32_h := by
  refine ⟨rfl, rfl, rfl, rfl⟩

/-- Claim C9: the eight error-code constants exposed by win32_kernel.h are
pairwise distinct, so a mapping keyed on these OS codes is unambiguous. -/
theorem error_codes_pairwise_distinct :
    [ERROR_FILE_NOT_FOUND, ERROR_PATH_NOT_FOUND, ERROR_ACCESS_DENIED,
     ERROR_INVALID_HANDLE, ERROR_INVALID_PARAMETER, ERROR_INVALID_NAME,
     ERROR_DIRECTORY, ERROR_IO_PENDING].Nodup := by
  decide

/-- Claim C10: READ_CONTROL, STANDARD_RIGHTS_READ, STANDARD_RIGHTS_WRITE and
STANDARD_RIGHTS_EXECUTE all equal 0x00020000, and that bit is contained in
STANDARD_RIGHTS_ALL = 0x001F0000. -/
theorem standard_rights_aliases :
    READ_CONTROL = 0x00020000 ∧
    STANDARD_RIGHTS_READ = READ_CONTROL ∧
    STANDARD_RIGHTS_WRITE = READ_CONTROL ∧
    STANDARD_RIGHTS_EXECUTE = READ_CONTROL ∧
    STANDARD_RIGHTS_ALL = 0x001F0000 ∧
    READ_CONTROL &&& STANDARD_RIGHTS_ALL = READ_CONTROL := by
  refine ⟨rfl, rfl, rfl, rfl, rfl, by decide⟩

end Twisted
